import Mathlib

/-!
Verification development for `registry/registry.go`.

A shallow embedding of the Google Cloud Storage registry plugin:

* `ConfigSet`            : configuration validation (`registry.go` lines 72-93);
* `push`                 : the upload operation (`registry.go` lines 127-173), with
                           every collaborator call and every progress-sink call
                           recorded in an explicit trace;
* `stripQueryParams`     : the URL canonicalisation (`registry.go` lines 175-184).

Go strings are byte sequences, so they are embedded as lists of bytes.
`stripQueryParams` is two calls into Go's standard library (`url.Parse` and
`(*URL).String`); the part of `net/url` reachable from these two calls is
embedded below, function by function, under the names it has in `net/url`
(the text of Go 1.20; the field `OmitHost` exists since Go 1.19 and plays no
part in the concrete inputs used below).  The collaborators of `push` whose
code is outside the repository (the storage client, the file system, the
terminal) are a record of outcomes, `World`.
-/

namespace CloudStorage

/-! ## Go strings and errors -/

/-- A byte. -/
abbrev Byte := Fin 256

/-- A Go string: a finite sequence of bytes. -/
abbrev GoString := List Byte

/-- The byte of an ASCII character literal. -/
def ch (c : Char) : Byte := Fin.ofNat c.toNat

/-- The Go string of an ASCII string literal. -/
def str (s : String) : GoString := s.toList.map ch

/-- Go `error` values that occur in the program.  `msg` is `errors.New` /
`fmt.Errorf` without arguments; `fmt1` is `fmt.Errorf(format, arg)`;
`escapeError`, `invalidHostError` and `urlError` are the error types of
`net/url` (`EscapeError`, `InvalidHostError`, `*url.Error`). -/
inductive GoError where
  | msg (s : GoString)
  | fmt1 (format arg : GoString)
  | escapeError (s : GoString)
  | invalidHostError (s : GoString)
  | urlError (op url : GoString) (err : GoError)
  deriving DecidableEq, Repr

/-! ## The `strings` helpers used by `net/url` -/

namespace Strings

/-- The Go `strings.HasPrefix`. -/
def HasPrefix : GoString → GoString → Bool
  | _, [] => true
  | [], _ :: _ => false
  | c :: s, d :: p => c == d && HasPrefix s p

/-- The Go `strings.HasSuffix`. -/
def HasSuffix (s suffix : GoString) : Bool :=
  HasPrefix s.reverse suffix.reverse

/-- The Go `strings.Index`: position of the first occurrence of `sep`. -/
def Index : GoString → GoString → Option Nat
  | [], sep => if sep.isEmpty then some 0 else none
  | c :: s, sep =>
    if HasPrefix (c :: s) sep then some 0
    else (Index s sep).map (· + 1)

/-- The Go `strings.LastIndex` for a one-byte separator. -/
def LastIndexByte : GoString → Byte → Option Nat
  | [], _ => none
  | c :: s, b =>
    match LastIndexByte s b with
    | some i => some (i + 1)
    | none => if c = b then some 0 else none

/-- The Go `strings.Contains`. -/
def Contains (s sep : GoString) : Bool := (Index s sep).isSome

/-- The Go `strings.Count` for a one-byte separator. -/
def CountByte (s : GoString) (b : Byte) : Nat := s.count b

/-- The Go `strings.Cut`: the text before and after the first `sep`. -/
def Cut (s sep : GoString) : GoString × GoString × Bool :=
  match Index s sep with
  | some i => (s.take i, s.drop (i + sep.length), true)
  | none => (s, [], false)

/-- The Go `strings.ToLower` on ASCII text (the only text it is applied to:
`getScheme` returns letters, digits, `+`, `-` and `.` only). -/
def ToLower (s : GoString) : GoString :=
  s.map (fun c => if ch 'A' ≤ c ∧ c ≤ ch 'Z' then c + 32 else c)

end Strings

/-! ## `net/url` -/

namespace Url

/-- The `encoding` modes of `net/url`. -/
inductive Encoding where
  | encodePath
  | encodePathSegment
  | encodeHost
  | encodeZone
  | encodeUserPassword
  | encodeQueryComponent
  | encodeFragment
  deriving DecidableEq, Repr

open Encoding

/-- The type `url.Userinfo`. -/
structure Userinfo where
  username : GoString
  password : GoString
  passwordSet : Bool
  deriving DecidableEq, Repr

/-- The type `url.URL`. -/
structure URL where
  Scheme : GoString := []
  Opaque : GoString := []
  User : Option Userinfo := none
  Host : GoString := []
  Path : GoString := []
  RawPath : GoString := []
  OmitHost : Bool := false
  ForceQuery : Bool := false
  RawQuery : GoString := []
  Fragment : GoString := []
  RawFragment : GoString := []
  deriving DecidableEq, Repr

/-- The `ishex` of `net/url`. -/
def ishex (c : Byte) : Bool :=
  (ch '0' ≤ c && c ≤ ch '9') || (ch 'a' ≤ c && c ≤ ch 'f') || (ch 'A' ≤ c && c ≤ ch 'F')

/-- The `unhex` of `net/url`. -/
def unhex (c : Byte) : Byte :=
  if ch '0' ≤ c ∧ c ≤ ch '9' then c - ch '0'
  else if ch 'a' ≤ c ∧ c ≤ ch 'f' then c - ch 'a' + 10
  else if ch 'A' ≤ c ∧ c ≤ ch 'F' then c - ch 'A' + 10
  else 0

/-- The byte `unhex(a)<<4 | unhex(b)`. -/
def hexByte (a b : Byte) : Byte :=
  Fin.ofNat (((unhex a).val * 16) % 256 ||| (unhex b).val)

/-- The table `upperhex` of `net/url`, indexed by a nibble. -/
def upperhex (n : Nat) : Byte :=
  (str "0123456789ABCDEF").getD n 0

/-- The `shouldEscape` of `net/url`. -/
def shouldEscape (c : Byte) (mode : Encoding) : Bool :=
  if (ch 'a' ≤ c && c ≤ ch 'z') || (ch 'A' ≤ c && c ≤ ch 'Z') || (ch '0' ≤ c && c ≤ ch '9') then
    false
  else if (mode = encodeHost ∨ mode = encodeZone) ∧ c ∈ str "!$&'()*+,;=:[]<>\"" then
    false
  else if c ∈ str "-_.~" then
    false
  else if c ∈ str "$&+,/:;=?@" ∧ mode = encodePath then
    c == ch '?'
  else if c ∈ str "$&+,/:;=?@" ∧ mode = encodePathSegment then
    c == ch '/' || c == ch ';' || c == ch ',' || c == ch '?'
  else if c ∈ str "$&+,/:;=?@" ∧ mode = encodeUserPassword then
    c == ch '@' || c == ch '/' || c == ch '?' || c == ch ':'
  else if c ∈ str "$&+,/:;=?@" ∧ mode = encodeQueryComponent then
    true
  else if c ∈ str "$&+,/:;=?@" ∧ mode = encodeFragment then
    false
  else if mode = encodeFragment ∧ c ∈ str "!()*" then
    false
  else
    true

/-- The first loop of `unescape`: it checks that every `%` starts a
well-formed escape and returns the number of `%` and the flag `hasPlus`. -/
def unescapeScan (mode : Encoding) : GoString → Nat → Bool → Except GoError (Nat × Bool)
  | [], n, hasPlus => .ok (n, hasPlus)
  | c :: t, n, hasPlus =>
    if c = ch '%' then
      match t with
      | a :: b :: rest =>
        if !ishex a || !ishex b then
          .error (.escapeError [c, a, b])
        else if mode = encodeHost ∧ (unhex a).val < 8 ∧ [c, a, b] ≠ str "%25" then
          .error (.escapeError [c, a, b])
        else if mode = encodeZone ∧ [c, a, b] ≠ str "%25" ∧ hexByte a b ≠ ch ' '
            ∧ shouldEscape (hexByte a b) encodeHost then
          .error (.escapeError [c, a, b])
        else
          unescapeScan mode rest (n + 1) hasPlus
      | _ => .error (.escapeError (c :: t))
    else if c = ch '+' then
      unescapeScan mode t n (mode = encodeQueryComponent)
    else if (mode = encodeHost ∨ mode = encodeZone) ∧ c.val < 0x80 ∧ shouldEscape c encodeHost then
      .error (.invalidHostError [c])
    else
      unescapeScan mode t n hasPlus

/-- The second loop of `unescape`: it decodes the escapes. -/
def unescapeDecode (mode : Encoding) : GoString → GoString
  | [] => []
  | c :: t =>
    if c = ch '%' then
      match t with
      | a :: b :: rest => hexByte a b :: unescapeDecode mode rest
      | _ => []
    else if c = ch '+' then
      (if mode = encodeQueryComponent then ch ' ' else ch '+') :: unescapeDecode mode t
    else
      c :: unescapeDecode mode t

/-- The `unescape` of `net/url`. -/
def unescape (s : GoString) (mode : Encoding) : Except GoError GoString :=
  match unescapeScan mode s 0 false with
  | .error e => .error e
  | .ok (n, hasPlus) =>
    if n = 0 ∧ hasPlus = false then .ok s else .ok (unescapeDecode mode s)

/-- The second loop of `escape`: it writes the escaped text. -/
def escapeWrite (mode : Encoding) : GoString → GoString
  | [] => []
  | c :: t =>
    if c = ch ' ' ∧ mode = encodeQueryComponent then
      ch '+' :: escapeWrite mode t
    else if shouldEscape c mode then
      ch '%' :: upperhex (c.val / 16) :: upperhex (c.val % 16) :: escapeWrite mode t
    else
      c :: escapeWrite mode t

/-- The `escape` of `net/url`. -/
def escape (s : GoString) (mode : Encoding) : GoString :=
  let spaceCount := s.countP (fun c => shouldEscape c mode && (c == ch ' ' && mode == encodeQueryComponent))
  let hexCount := s.countP (fun c => shouldEscape c mode && !(c == ch ' ' && mode == encodeQueryComponent))
  if spaceCount = 0 ∧ hexCount = 0 then s else escapeWrite mode s

/-- The `validEncoded` of `net/url`. -/
def validEncoded (s : GoString) (mode : Encoding) : Bool :=
  s.all (fun c => c ∈ str "!$&'()*+,;=:@" || c ∈ str "[]" || c == ch '%' || !shouldEscape c mode)

/-- The `stringContainsCTLByte` of `net/url`. -/
def stringContainsCTLByte (s : GoString) : Bool :=
  s.any (fun b => b < ch ' ' || b == 0x7f)

/-- The loop of `getScheme`, at position `i` with `pre` the bytes already
read (in reverse) and `rawURL` the whole text. -/
def getSchemeLoop (rawURL : GoString) : GoString → GoString → Except GoError (GoString × GoString)
  | [], _ => .ok ([], rawURL)
  | c :: t, pre =>
    if (ch 'a' ≤ c && c ≤ ch 'z') || (ch 'A' ≤ c && c ≤ ch 'Z') then
      getSchemeLoop rawURL t (c :: pre)
    else if (ch '0' ≤ c && c ≤ ch '9') || c == ch '+' || c == ch '-' || c == ch '.' then
      if pre.isEmpty then .ok ([], rawURL) else getSchemeLoop rawURL t (c :: pre)
    else if c = ch ':' then
      if pre.isEmpty then .error (.msg (str "missing protocol scheme"))
      else .ok (pre.reverse, t)
    else
      .ok ([], rawURL)

/-- The `getScheme` of `net/url`. -/
def getScheme (rawURL : GoString) : Except GoError (GoString × GoString) :=
  getSchemeLoop rawURL rawURL []

/-- The `validOptionalPort` of `net/url`. -/
def validOptionalPort : GoString → Bool
  | [] => true
  | c :: t => c == ch ':' && t.all (fun b => ch '0' ≤ b && b ≤ ch '9')

/-- The `validUserinfo` of `net/url`. -/
def validUserinfo (s : GoString) : Bool :=
  s.all (fun r =>
    (ch 'A' ≤ r && r ≤ ch 'Z') || (ch 'a' ≤ r && r ≤ ch 'z') || (ch '0' ≤ r && r ≤ ch '9')
      || r ∈ str "-._:~!$&'()*+,;=%@")

/-- The `parseHost` of `net/url`. -/
def parseHost (host : GoString) : Except GoError GoString :=
  if Strings.HasPrefix host (str "[") then
    match Strings.LastIndexByte host (ch ']') with
    | none => .error (.msg (str "missing ']' in host"))
    | some i =>
      let colonPort := host.drop (i + 1)
      if !validOptionalPort colonPort then
        .error (.fmt1 (str "invalid port %q after host") colonPort)
      else
        match Strings.Index (host.take i) (str "%25") with
        | some zone =>
          match unescape (host.take zone) encodeHost with
          | .error e => .error e
          | .ok host1 =>
            match unescape ((host.take i).drop zone) encodeZone with
            | .error e => .error e
            | .ok host2 =>
              match unescape (host.drop i) encodeHost with
              | .error e => .error e
              | .ok host3 => .ok (host1 ++ host2 ++ host3)
        | none => unescape host encodeHost
  else
    match Strings.LastIndexByte host (ch ':') with
    | some i =>
      let colonPort := host.drop i
      if !validOptionalPort colonPort then
        .error (.fmt1 (str "invalid port %q after host") colonPort)
      else unescape host encodeHost
    | none => unescape host encodeHost

/-- The `parseAuthority` of `net/url`. -/
def parseAuthority (authority : GoString) : Except GoError (Option Userinfo × GoString) :=
  match Strings.LastIndexByte authority (ch '@') with
  | none =>
    match parseHost authority with
    | .error e => .error e
    | .ok host => .ok (none, host)
  | some i =>
    match parseHost (authority.drop (i + 1)) with
    | .error e => .error e
    | .ok host =>
      let userinfo := authority.take i
      if !validUserinfo userinfo then
        .error (.msg (str "net/url: invalid userinfo"))
      else if !Strings.Contains userinfo (str ":") then
        match unescape userinfo encodeUserPassword with
        | .error e => .error e
        | .ok username => .ok (some ⟨username, [], false⟩, host)
      else
        let (username, password, _) := Strings.Cut userinfo (str ":")
        match unescape username encodeUserPassword with
        | .error e => .error e
        | .ok username =>
          match unescape password encodeUserPassword with
          | .error e => .error e
          | .ok password => .ok (some ⟨username, password, true⟩, host)

/-- The method `(*URL).setPath` of `net/url`. -/
def URL.setPath (u : URL) (p : GoString) : Except GoError URL :=
  match unescape p encodePath with
  | .error e => .error e
  | .ok path =>
    if p = escape path encodePath then .ok { u with Path := path, RawPath := [] }
    else .ok { u with Path := path, RawPath := p }

/-- The method `(*URL).setFragment` of `net/url`. -/
def URL.setFragment (u : URL) (f : GoString) : Except GoError URL :=
  match unescape f encodeFragment with
  | .error e => .error e
  | .ok frag =>
    if f = escape frag encodeFragment then .ok { u with Fragment := frag, RawFragment := [] }
    else .ok { u with Fragment := frag, RawFragment := f }

/-- The `parse` of `net/url` with `viaRequest = false`, as `url.Parse`
calls it. -/
def parse (rawURL : GoString) : Except GoError URL :=
  if stringContainsCTLByte rawURL then
    .error (.msg (str "net/url: invalid control character in URL"))
  else if rawURL = str "*" then
    .ok { Path := str "*" }
  else
    match getScheme rawURL with
    | .error e => .error e
    | .ok (scheme, rest) =>
      let url : URL := { Scheme := Strings.ToLower scheme }
      let (url, rest) :=
        if Strings.HasSuffix rest (str "?") ∧ Strings.CountByte rest (ch '?') = 1 then
          ({ url with ForceQuery := true }, rest.take (rest.length - 1))
        else
          let (before, after, _) := Strings.Cut rest (str "?")
          ({ url with RawQuery := after }, before)
      if !Strings.HasPrefix rest (str "/") ∧ url.Scheme ≠ [] then
        .ok { url with Opaque := rest }
      else if !Strings.HasPrefix rest (str "/")
          ∧ Strings.Contains (Strings.Cut rest (str "/")).1 (str ":") then
        .error (.msg (str "first path segment in URL cannot contain colon"))
      else if (url.Scheme ≠ [] ∨ !Strings.HasPrefix rest (str "///"))
          ∧ Strings.HasPrefix rest (str "//") then
        let authority := rest.drop 2
        let (authority, rest) :=
          match Strings.Index authority (str "/") with
          | some i => (authority.take i, authority.drop i)
          | none => (authority, [])
        match parseAuthority authority with
        | .error e => .error e
        | .ok (user, host) => URL.setPath { url with User := user, Host := host } rest
      else if url.Scheme ≠ [] ∧ Strings.HasPrefix rest (str "/") then
        URL.setPath { url with OmitHost := true } rest
      else
        URL.setPath url rest

/-- The function `url.Parse`. -/
def Parse (rawURL : GoString) : Except GoError URL :=
  let (u, frag, _) := Strings.Cut rawURL (str "#")
  match parse u with
  | .error e => .error (.urlError (str "parse") u e)
  | .ok url =>
    if frag = [] then .ok url
    else
      match URL.setFragment url frag with
      | .error e => .error (.urlError (str "parse") rawURL e)
      | .ok url => .ok url

/-- The method `(*URL).EscapedPath` of `net/url`. -/
def URL.EscapedPath (u : URL) : GoString :=
  if u.RawPath ≠ [] ∧ validEncoded u.RawPath encodePath
      ∧ (unescape u.RawPath encodePath).toOption = some u.Path then
    u.RawPath
  else if u.Path = str "*" then
    str "*"
  else
    escape u.Path encodePath

/-- The method `(*URL).EscapedFragment` of `net/url`. -/
def URL.EscapedFragment (u : URL) : GoString :=
  if u.RawFragment ≠ [] ∧ validEncoded u.RawFragment encodeFragment
      ∧ (unescape u.RawFragment encodeFragment).toOption = some u.Fragment then
    u.RawFragment
  else
    escape u.Fragment encodeFragment

/-- The method `(*Userinfo).String` of `net/url`, on a non-nil receiver. -/
def Userinfo.String (u : Userinfo) : GoString :=
  let s := escape u.username encodeUserPassword
  if u.passwordSet then s ++ str ":" ++ escape u.password encodeUserPassword else s

/-- The part of `(*URL).String` that writes authority and path, when
`Opaque` is empty; `buf` holds the text written so far. -/
def URL.writeHierPart (u : URL) (buf : GoString) : GoString :=
  let buf :=
    if u.Scheme ≠ [] ∨ u.Host ≠ [] ∨ u.User ≠ none then
      if u.OmitHost ∧ u.Host = [] ∧ u.User = none then buf
      else
        let buf := if u.Host ≠ [] ∨ u.Path ≠ [] ∨ u.User ≠ none then buf ++ str "//" else buf
        let buf :=
          match u.User with
          | some ui => buf ++ Userinfo.String ui ++ str "@"
          | none => buf
        if u.Host ≠ [] then buf ++ escape u.Host encodeHost else buf
    else buf
  let path := URL.EscapedPath u
  let buf :=
    if path ≠ [] ∧ path.head? ≠ some (ch '/') ∧ u.Host ≠ [] then buf ++ str "/" else buf
  let buf :=
    if buf.length = 0 ∧ Strings.Contains (Strings.Cut path (str "/")).1 (str ":") then
      buf ++ str "./"
    else buf
  buf ++ path

/-- The method `(*URL).String` of `net/url`. -/
def URL.String (u : URL) : GoString :=
  let buf := if u.Scheme ≠ [] then u.Scheme ++ str ":" else []
  let buf := if u.Opaque ≠ [] then buf ++ u.Opaque else URL.writeHierPart u buf
  let buf := if u.ForceQuery ∨ u.RawQuery ≠ [] then buf ++ str "?" ++ u.RawQuery else buf
  if u.Fragment ≠ [] then buf ++ str "#" ++ URL.EscapedFragment u else buf

end Url

/-! ## `registry.go` -/

/-- The function `stripQueryParams` (`registry.go` lines 175-184): the pair
`(string, error)` it returns, with `none` for a nil error. -/
def stripQueryParams (u : GoString) : GoString × Option GoError :=
  match Url.Parse u with
  | .error err => ([], some err)
  | .ok pu => (Url.URL.String { pu with RawQuery := [] }, none)

/-- The type `RegistryConfig` (`registry.go` lines 18-22). -/
structure RegistryConfig where
  Source : GoString
  Name : GoString
  Bucket : GoString
  deriving DecidableEq, Repr

/-- The type `Registry` (`registry.go` lines 24-26). -/
structure Registry where
  config : RegistryConfig
  deriving DecidableEq, Repr

/-- The type `Artifact`, the output of `push`. -/
structure Artifact where
  Source : GoString
  deriving DecidableEq, Repr

/-- The type `component.Source` of the plugin SDK. -/
structure ComponentSource where
  App : GoString
  Path : GoString
  deriving DecidableEq, Repr

/-- The dynamic type of the `interface{}` argument of `ConfigSet`: a
(non-nil) `*RegistryConfig`, or a value of any other type. -/
inductive ConfigArg where
  | registryConfig (c : RegistryConfig)
  | other
  deriving DecidableEq, Repr

/-- The method `ConfigSet` (`registry.go` lines 72-93): the error it
returns, `none` for nil. -/
def ConfigSet (config : ConfigArg) : Option GoError :=
  match config with
  | .other => some (.msg (str "Expected *RegisterConfig as parameter"))
  | .registryConfig c =>
    if c.Source = [] then
      some (.msg (str "Source artifcat should not be empty"))
    else if c.Name = [] then
      some (.msg (str "Name of the object should not be empty"))
    else if c.Bucket = [] then
      some (.msg (str "Bucket should not be empty"))
    else
      none

/-- The status levels of the SDK package `terminal` (`StatusOK`,
`StatusError`, `StatusWarn`, `StatusTimeout`, `StatusAbort`). -/
inductive Status where
  | StatusOK
  | StatusError
  | StatusWarn
  | StatusTimeout
  | StatusAbort
  deriving DecidableEq, Repr

/-- What `push` does to the outside world, one constructor per call site:
the four calls on the terminal (`ui.Status()`, `u.Update`, `u.Step`,
`u.Close`), the calls on the storage client, the file system and the
writer, the call of `stripQueryParams`, and `f.Close()` on the local file
(which no line of `push` performs). -/
inductive Event where
  | uiStatus
  | update (msg : GoString)
  | step (status : Status) (msg : GoString)
  | statusClose
  | newClient
  | newWriter (bucket name : GoString)
  | osOpen (path : GoString)
  | ioCopy
  | writerClose
  | objectAttrs
  | stripQuery (ml : GoString)
  | fileClose
  deriving DecidableEq, Repr

/-- The collaborators of `push`: the outcome of each call that can fail
(`none` is a nil error) and the library function `path.Join`. -/
structure World where
  /-- The error of `storage.NewClient(ctx)`. -/
  newClient : Option GoError
  /-- The function `path.Join`. -/
  pathJoin : GoString → GoString → GoString
  /-- The error of `os.Open(p)`. -/
  osOpen : GoString → Option GoError
  /-- The error of `io.Copy(wc, f)`. -/
  ioCopy : Option GoError
  /-- The error of `wc.Close()`. -/
  wcClose : Option GoError
  /-- The result of `object.Attrs(ctx)`: the `MediaLink` of the attributes,
  or the error. -/
  objectAttrs : Except GoError GoString

/-- The result `(*Artifact, error)` of `push` and the trace of its calls. -/
abbrev PushResult := (Option Artifact × Option GoError) × List Event

/-- The body of `push` after `defer u.Close()` (`registry.go` lines
131-172); `t` is the trace so far. -/
def pushBody (r : Registry) (w : World) (source : ComponentSource) (t : List Event) :
    PushResult :=
  let t := t ++ [.update (str "Pushing artifact to registry: " ++ r.config.Name)]
  let t := t ++ [.newClient]
  match w.newClient with
  | some err => ((none, some err), t)
  | none =>
    let t := t ++ [.newWriter r.config.Bucket r.config.Name]
    let p := w.pathJoin source.Path r.config.Source
    let t := t ++ [.osOpen p]
    match w.osOpen p with
    | some err =>
      ((none, some err), t ++ [.step .StatusError (str "Opening source file failed")])
    | none =>
      let t := t ++ [.ioCopy]
      match w.ioCopy with
      | some err =>
        ((none, some err),
          t ++ [.step .StatusError (str "Uploading file to Google Cloud Storage failed")])
      | none =>
        let t := t ++ [.writerClose]
        match w.wcClose with
        | some err =>
          ((none, some err),
            t ++ [.step .StatusError (str "Error closing GCS writer after file upload")])
        | none =>
          let t := t ++ [.objectAttrs]
          match w.objectAttrs with
          | .error err =>
            ((none, some err),
              t ++ [.step .StatusError (str "Error fetching uploaded object attributes")])
          | .ok ml =>
            let t := t ++ [.stripQuery ml]
            match stripQueryParams ml with
            | (_, some err) =>
              ((none, some err),
                t ++ [.step .StatusError (str "Error parsing uploaded object url")])
            | (sourceURL, none) =>
              ((some { Source := sourceURL }, none),
                t ++ [.step .StatusOK
                  (str "Artifact saved to Google Cloud Storage: '" ++ sourceURL ++ str "'")])

/-- The method `push` (`registry.go` lines 127-173): `ui.Status()`, the
body, and then the deferred `u.Close()`. -/
def push (r : Registry) (w : World) (source : ComponentSource) : PushResult :=
  let (res, t) := pushBody r w source [.uiStatus]
  (res, t ++ [.statusClose])

/-! ## Vocabulary of the properties -/

/-- The steps of `push` that the properties speak of, in program order. -/
inductive Step where
  | clientConstruction
  | writerOpen
  | fileOpen
  | copy
  | writerClose
  | attrsFetch
  | urlParse
  deriving DecidableEq, Repr

/-- The fixed order of the steps. -/
def Step.order : List Step :=
  [.clientConstruction, .writerOpen, .fileOpen, .copy, .writerClose, .attrsFetch, .urlParse]

/-- The error a step produces in world `w`, `none` when the step succeeds.
Opening the writer cannot fail (`NewWriter` returns no error); the URL parse
is `url.Parse` on the fetched `MediaLink`. -/
def stepError (r : Registry) (w : World) (source : ComponentSource) : Step → Option GoError
  | .clientConstruction => w.newClient
  | .writerOpen => none
  | .fileOpen => w.osOpen (w.pathJoin source.Path r.config.Source)
  | .copy => w.ioCopy
  | .writerClose => w.wcClose
  | .attrsFetch =>
    match w.objectAttrs with
    | .error e => some e
    | .ok _ => none
  | .urlParse =>
    match w.objectAttrs with
    | .error _ => none
    | .ok ml =>
      match Url.Parse ml with
      | .error e => some e
      | .ok _ => none

/-- The error of the first failing step in program order, if any. -/
def firstFailure (r : Registry) (w : World) (source : ComponentSource) : Option GoError :=
  (Step.order.filterMap (stepError r w source)).head?

/-- The steps a short-circuiting run performs: every step up to and
including the first one that fails. -/
def stepsRun (fails : Step → Bool) : List Step → List Step
  | [] => []
  | st :: rest => if fails st then [st] else st :: stepsRun fails rest

/-- The step an event is an operation of; `none` for the terminal calls and
for `fileClose`. -/
def Event.stepOf : Event → Option Step
  | .newClient => some .clientConstruction
  | .newWriter _ _ => some .writerOpen
  | .osOpen _ => some .fileOpen
  | .ioCopy => some .copy
  | .writerClose => some .writerClose
  | .objectAttrs => some .attrsFetch
  | .stripQuery _ => some .urlParse
  | _ => none

/-- Whether an event is an operation on the progress status `u`
(`Update`, `Step` or `Close`). -/
def Event.isSinkOp : Event → Bool
  | .update _ => true
  | .step _ _ => true
  | .statusClose => true
  | _ => false

/-- Whether an event is an error-level status step. -/
def Event.isErrorStep : Event → Bool
  | .step .StatusError _ => true
  | _ => false

/-- The operations on the progress status in a trace, in order. -/
def sinkOps (t : List Event) : List Event := t.filter Event.isSinkOp

/-- A world in which every collaborator succeeds and the uploaded object has
media link `ml`; `path.Join` is stood for by joining with a slash. -/
def World.allOk (ml : GoString) : World where
  newClient := none
  pathJoin := fun a b => a ++ str "/" ++ b
  osOpen := fun _ => none
  ioCopy := none
  wcClose := none
  objectAttrs := .ok ml

/-- The configuration of the scenario in the specification. -/
def exampleRegistry : Registry :=
  { config := { Source := str "server.zip", Name := str "build-42.zip", Bucket := str "my-bucket" } }

/-- The source locator of the example. -/
def exampleSource : ComponentSource := { App := str "app", Path := str "/work" }

/-- The media link of the example. -/
def exampleMediaLink : GoString := str "https://storage.example/b/my-bucket/o/build-42.zip?alt=media"

/-- An error value for the examples. -/
def exampleError : GoError := .msg (str "boom")

/-! ## URL texts of the common form -/

/-- The first status update of `push`. -/
def startUpdate (r : Registry) : Event :=
  .update (str "Pushing artifact to registry: " ++ r.config.Name)

/-- The seven ways a run of `push` can go: a failure at one of the six steps
that can fail, or success. -/
inductive PushPath (r : Registry) (w : World) (source : ComponentSource) : Prop where
  | clientFail (e : GoError) (h1 : w.newClient = some e)
  | openFail (e : GoError) (h1 : w.newClient = none)
      (h2 : w.osOpen (w.pathJoin source.Path r.config.Source) = some e)
  | copyFail (e : GoError) (h1 : w.newClient = none)
      (h2 : w.osOpen (w.pathJoin source.Path r.config.Source) = none) (h3 : w.ioCopy = some e)
  | closeFail (e : GoError) (h1 : w.newClient = none)
      (h2 : w.osOpen (w.pathJoin source.Path r.config.Source) = none) (h3 : w.ioCopy = none)
      (h4 : w.wcClose = some e)
  | attrsFail (e : GoError) (h1 : w.newClient = none)
      (h2 : w.osOpen (w.pathJoin source.Path r.config.Source) = none) (h3 : w.ioCopy = none)
      (h4 : w.wcClose = none) (h5 : w.objectAttrs = .error e)
  | parseFail (e : GoError) (ml : GoString) (h1 : w.newClient = none)
      (h2 : w.osOpen (w.pathJoin source.Path r.config.Source) = none) (h3 : w.ioCopy = none)
      (h4 : w.wcClose = none) (h5 : w.objectAttrs = .ok ml) (h6 : Url.Parse ml = .error e)
  | success (ml : GoString) (pu : Url.URL) (h1 : w.newClient = none)
      (h2 : w.osOpen (w.pathJoin source.Path r.config.Source) = none) (h3 : w.ioCopy = none)
      (h4 : w.wcClose = none) (h5 : w.objectAttrs = .ok ml) (h6 : Url.Parse ml = .ok pu)

/-! ## Lemmas: `push` path by path -/

theorem stripQueryParams_error (u : GoString) (e : GoError) (h : Url.Parse u = .error e) :
    stripQueryParams u = ([], some e) := by
  simp [stripQueryParams, h]

theorem stripQueryParams_ok (u : GoString) (pu : Url.URL) (h : Url.Parse u = .ok pu) :
    stripQueryParams u = (Url.URL.String { pu with RawQuery := [] }, none) := by
  simp [stripQueryParams, h]

theorem push_clientFail (r : Registry) (w : World) (source : ComponentSource) (e : GoError)
    (h1 : w.newClient = some e) :
    push r w source = ((none, some e), [.uiStatus, startUpdate r, .newClient, .statusClose]) := by
  simp [push, pushBody, h1, startUpdate]

theorem push_openFail (r : Registry) (w : World) (source : ComponentSource) (e : GoError)
    (h1 : w.newClient = none) (h2 : w.osOpen (w.pathJoin source.Path r.config.Source) = some e) :
    push r w source = ((none, some e),
      [.uiStatus, startUpdate r, .newClient, .newWriter r.config.Bucket r.config.Name,
       .osOpen (w.pathJoin source.Path r.config.Source),
       .step .StatusError (str "Opening source file failed"), .statusClose]) := by
  simp [push, pushBody, h1, h2, startUpdate]

theorem push_copyFail (r : Registry) (w : World) (source : ComponentSource) (e : GoError)
    (h1 : w.newClient = none) (h2 : w.osOpen (w.pathJoin source.Path r.config.Source) = none)
    (h3 : w.ioCopy = some e) :
    push r w source = ((none, some e),
      [.uiStatus, startUpdate r, .newClient, .newWriter r.config.Bucket r.config.Name,
       .osOpen (w.pathJoin source.Path r.config.Source), .ioCopy,
       .step .StatusError (str "Uploading file to Google Cloud Storage failed"),
       .statusClose]) := by
  simp [push, pushBody, h1, h2, h3, startUpdate]

theorem push_closeFail (r : Registry) (w : World) (source : ComponentSource) (e : GoError)
    (h1 : w.newClient = none) (h2 : w.osOpen (w.pathJoin source.Path r.config.Source) = none)
    (h3 : w.ioCopy = none) (h4 : w.wcClose = some e) :
    push r w source = ((none, some e),
      [.uiStatus, startUpdate r, .newClient, .newWriter r.config.Bucket r.config.Name,
       .osOpen (w.pathJoin source.Path r.config.Source), .ioCopy, .writerClose,
       .step .StatusError (str "Error closing GCS writer after file upload"),
       .statusClose]) := by
  simp [push, pushBody, h1, h2, h3, h4, startUpdate]

theorem push_attrsFail (r : Registry) (w : World) (source : ComponentSource) (e : GoError)
    (h1 : w.newClient = none) (h2 : w.osOpen (w.pathJoin source.Path r.config.Source) = none)
    (h3 : w.ioCopy = none) (h4 : w.wcClose = none) (h5 : w.objectAttrs = .error e) :
    push r w source = ((none, some e),
      [.uiStatus, startUpdate r, .newClient, .newWriter r.config.Bucket r.config.Name,
       .osOpen (w.pathJoin source.Path r.config.Source), .ioCopy, .writerClose, .objectAttrs,
       .step .StatusError (str "Error fetching uploaded object attributes"),
       .statusClose]) := by
  simp [push, pushBody, h1, h2, h3, h4, h5, startUpdate]

theorem push_parseFail (r : Registry) (w : World) (source : ComponentSource) (e : GoError)
    (ml : GoString)
    (h1 : w.newClient = none) (h2 : w.osOpen (w.pathJoin source.Path r.config.Source) = none)
    (h3 : w.ioCopy = none) (h4 : w.wcClose = none) (h5 : w.objectAttrs = .ok ml)
    (h6 : Url.Parse ml = .error e) :
    push r w source = ((none, some e),
      [.uiStatus, startUpdate r, .newClient, .newWriter r.config.Bucket r.config.Name,
       .osOpen (w.pathJoin source.Path r.config.Source), .ioCopy, .writerClose, .objectAttrs,
       .stripQuery ml,
       .step .StatusError (str "Error parsing uploaded object url"),
       .statusClose]) := by
  simp [push, pushBody, h1, h2, h3, h4, h5, stripQueryParams_error ml e h6, startUpdate]

theorem push_success (r : Registry) (w : World) (source : ComponentSource)
    (ml : GoString) (pu : Url.URL)
    (h1 : w.newClient = none) (h2 : w.osOpen (w.pathJoin source.Path r.config.Source) = none)
    (h3 : w.ioCopy = none) (h4 : w.wcClose = none) (h5 : w.objectAttrs = .ok ml)
    (h6 : Url.Parse ml = .ok pu) :
    push r w source = ((some { Source := (stripQueryParams ml).1 }, none),
      [.uiStatus, startUpdate r, .newClient, .newWriter r.config.Bucket r.config.Name,
       .osOpen (w.pathJoin source.Path r.config.Source), .ioCopy, .writerClose, .objectAttrs,
       .stripQuery ml,
       .step .StatusOK
         (str "Artifact saved to Google Cloud Storage: '" ++ (stripQueryParams ml).1 ++ str "'"),
       .statusClose]) := by
  simp [push, pushBody, h1, h2, h3, h4, h5, stripQueryParams_ok ml pu h6, startUpdate]

theorem pushPath_total (r : Registry) (w : World) (source : ComponentSource) :
    PushPath r w source := by
  cases h1 : w.newClient with
  | some e => exact .clientFail e h1
  | none =>
  cases h2 : w.osOpen (w.pathJoin source.Path r.config.Source) with
  | some e => exact .openFail e h1 h2
  | none =>
  cases h3 : w.ioCopy with
  | some e => exact .copyFail e h1 h2 h3
  | none =>
  cases h4 : w.wcClose with
  | some e => exact .closeFail e h1 h2 h3 h4
  | none =>
  cases h5 : w.objectAttrs with
  | error e => exact .attrsFail e h1 h2 h3 h4 h5
  | ok ml =>
  cases h6 : Url.Parse ml with
  | error e => exact .parseFail e ml h1 h2 h3 h4 h5 h6
  | ok pu => exact .success ml pu h1 h2 h3 h4 h5 h6

/-! ## Lemmas: `net/url` on URL texts of the common form -/

open Url Url.Encoding

theorem str_slash3 : str "///" = [ch '/', ch '/', ch '/'] := rfl
/-- C1: `ConfigSet` on a `*RegistryConfig` returns a non-nil error if and
only if one of `Source`, `Name`, `Bucket` is the empty string, and so returns
nil exactly when all three are non-empty, whatever their content. -/
theorem ConfigSet_error_iff (c : RegistryConfig) :
    (ConfigSet (.registryConfig c) ≠ none ↔ (c.Source = [] ∨ c.Name = [] ∨ c.Bucket = [])) ∧
    (ConfigSet (.registryConfig c) = none ↔ (c.Source ≠ [] ∧ c.Name ≠ [] ∧ c.Bucket ≠ [])) := by
  unfold ConfigSet
  by_cases hs : c.Source = [] <;> by_cases hn : c.Name = [] <;> by_cases hb : c.Bucket = [] <;>
    simp [hs, hn, hb]

/-! ## The result of `push` -/

/-- C2: `push` returns a non-nil `Artifact` with a nil error if and only if
every step succeeds; and when some step fails it returns a nil `Artifact`
together with exactly the error of the first failing step. -/
theorem push_result (r : Registry) (w : World) (source : ComponentSource) :
    ((∃ a, (push r w source).1 = (some a, none)) ↔ ∀ st, stepError r w source st = none) ∧
    ((∃ st, stepError r w source st ≠ none) →
      ∃ e, firstFailure r w source = some e ∧ (push r w source).1 = (none, some e)) := by
  have key : ∀ st e, stepError r w source st = some e →
      (∃ st, stepError r w source st ≠ none) := fun st e h => ⟨st, by simp [h]⟩
  rcases pushPath_total r w source with
    ⟨e, h1⟩ | ⟨e, h1, h2⟩ | ⟨e, h1, h2, h3⟩ | ⟨e, h1, h2, h3, h4⟩ | ⟨e, h1, h2, h3, h4, h5⟩ |
    ⟨e, ml, h1, h2, h3, h4, h5, h6⟩ | ⟨ml, pu, h1, h2, h3, h4, h5, h6⟩
  · rw [push_clientFail r w source e h1]
    refine ⟨⟨fun ⟨a, h⟩ => by simp at h, fun h => ?_⟩, fun _ => ⟨e, ?_, rfl⟩⟩
    · have := h .clientConstruction
      simp [stepError, h1] at this
    · simp [firstFailure, Step.order, stepError, h1]
  · rw [push_openFail r w source e h1 h2]
    refine ⟨⟨fun ⟨a, h⟩ => by simp at h, fun h => ?_⟩, fun _ => ⟨e, ?_, rfl⟩⟩
    · have := h .fileOpen
      simp [stepError, h2] at this
    · simp [firstFailure, Step.order, stepError, h1, h2]
  · rw [push_copyFail r w source e h1 h2 h3]
    refine ⟨⟨fun ⟨a, h⟩ => by simp at h, fun h => ?_⟩, fun _ => ⟨e, ?_, rfl⟩⟩
    · have := h .copy
      simp [stepError, h3] at this
    · simp [firstFailure, Step.order, stepError, h1, h2, h3]
  · rw [push_closeFail r w source e h1 h2 h3 h4]
    refine ⟨⟨fun ⟨a, h⟩ => by simp at h, fun h => ?_⟩, fun _ => ⟨e, ?_, rfl⟩⟩
    · have := h .writerClose
      simp [stepError, h4] at this
    · simp [firstFailure, Step.order, stepError, h1, h2, h3, h4]
  · rw [push_attrsFail r w source e h1 h2 h3 h4 h5]
    refine ⟨⟨fun ⟨a, h⟩ => by simp at h, fun h => ?_⟩, fun _ => ⟨e, ?_, rfl⟩⟩
    · have := h .attrsFetch
      simp [stepError, h5] at this
    · simp [firstFailure, Step.order, stepError, h1, h2, h3, h4, h5]
  · rw [push_parseFail r w source e ml h1 h2 h3 h4 h5 h6]
    refine ⟨⟨fun ⟨a, h⟩ => by simp at h, fun h => ?_⟩, fun _ => ⟨e, ?_, rfl⟩⟩
    · have := h .urlParse
      simp [stepError, h5, h6] at this
    · simp [firstFailure, Step.order, stepError, h1, h2, h3, h4, h5, h6]
  · rw [push_success r w source ml pu h1 h2 h3 h4 h5 h6]
    have hall : ∀ st, stepError r w source st = none := by
      intro st
      cases st <;> simp [stepError, h1, h2, h3, h4, h5, h6]
    refine ⟨⟨fun _ => hall, fun _ => ⟨_, rfl⟩⟩, fun ⟨st, hst⟩ => absurd (hall st) hst⟩

/-- Witness of C2: in the example world with a failing copy, `push` returns
a nil `Artifact` and the copy error. -/
theorem push_result_witness :
    (push exampleRegistry { World.allOk exampleMediaLink with ioCopy := some exampleError }
      exampleSource).1 = (none, some exampleError) := by
  obtain ⟨e, h1, h2⟩ := (push_result exampleRegistry
    { World.allOk exampleMediaLink with ioCopy := some exampleError } exampleSource).2
    ⟨.copy, by simp [stepError, World.allOk]⟩
  have h3 : firstFailure exampleRegistry
      { World.allOk exampleMediaLink with ioCopy := some exampleError } exampleSource
      = some exampleError := by
    simp [firstFailure, Step.order, stepError, World.allOk]
  rw [h3] at h1
  cases h1
  exact h2

/-! ## The progress sink -/

/-- Counterexample to C3: when client construction fails, `push` returns the
error and the trace contains no error-level status step at all. -/
theorem push_clientFail_no_error_step :
    (push exampleRegistry { World.allOk exampleMediaLink with newClient := some exampleError }
        exampleSource).1 = (none, some exampleError) ∧
    ¬ ((push exampleRegistry { World.allOk exampleMediaLink with newClient := some exampleError }
        exampleSource).2.countP Event.isErrorStep = 1) := by
  rw [push_clientFail exampleRegistry _ exampleSource exampleError rfl]
  simp [startUpdate, Event.isErrorStep]

/-- C3 (amended): when client construction fails, the operations on the
progress status are the initial update and `Close`, with no error-level
step; when a later step fails (file open, copy, writer close, attribute
fetch, URL parse), they are the initial update, exactly one error-level step,
and `Close`, so that step is the last status emitted before the close. -/
theorem push_failure_sinkOps (r : Registry) (w : World) (source : ComponentSource) :
    (∀ e, w.newClient = some e →
      sinkOps (push r w source).2 = [startUpdate r, .statusClose]) ∧
    (w.newClient = none → ∀ e, firstFailure r w source = some e →
      ∃ m, sinkOps (push r w source).2 = [startUpdate r, .step .StatusError m, .statusClose]) := by
  refine ⟨fun e h1 => ?_, fun h1 e hf => ?_⟩
  · rw [push_clientFail r w source e h1]
    simp [sinkOps, startUpdate, Event.isSinkOp]
  · rcases pushPath_total r w source with
      ⟨e, h1'⟩ | ⟨e, h1, h2⟩ | ⟨e, h1, h2, h3⟩ | ⟨e, h1, h2, h3, h4⟩ | ⟨e, h1, h2, h3, h4, h5⟩ |
      ⟨e, ml, h1, h2, h3, h4, h5, h6⟩ | ⟨ml, pu, h1, h2, h3, h4, h5, h6⟩
    · simp [h1] at h1'
    · rw [push_openFail r w source e h1 h2]
      exact ⟨str "Opening source file failed", by simp [sinkOps, startUpdate, Event.isSinkOp]⟩
    · rw [push_copyFail r w source e h1 h2 h3]
      exact ⟨str "Uploading file to Google Cloud Storage failed", by simp [sinkOps, startUpdate, Event.isSinkOp]⟩
    · rw [push_closeFail r w source e h1 h2 h3 h4]
      exact ⟨str "Error closing GCS writer after file upload", by simp [sinkOps, startUpdate, Event.isSinkOp]⟩
    · rw [push_attrsFail r w source e h1 h2 h3 h4 h5]
      exact ⟨str "Error fetching uploaded object attributes", by simp [sinkOps, startUpdate, Event.isSinkOp]⟩
    · rw [push_parseFail r w source e ml h1 h2 h3 h4 h5 h6]
      exact ⟨str "Error parsing uploaded object url", by simp [sinkOps, startUpdate, Event.isSinkOp]⟩
    · simp [firstFailure, Step.order, stepError, h1, h2, h3, h4, h5, h6] at hf

/-- Witness of C3 (amended): in the example world with a failing file open,
the sink sees the update, one error-level step and the close. -/
theorem push_failure_sinkOps_witness :
    ∃ m, sinkOps (push exampleRegistry
      { World.allOk exampleMediaLink with osOpen := fun _ => some exampleError }
      exampleSource).2 = [startUpdate exampleRegistry, .step .StatusError m, .statusClose] :=
  (push_failure_sinkOps exampleRegistry
    { World.allOk exampleMediaLink with osOpen := fun _ => some exampleError }
    exampleSource).2 rfl exampleError
    (by simp [firstFailure, Step.order, stepError, World.allOk])

/-- Counterexample to C4: in the example world, where every step succeeds,
the local file is opened and `push` returns without any `Close` on it. -/
theorem push_success_file_not_closed :
    Event.osOpen (str "/work/server.zip") ∈
      (push exampleRegistry (World.allOk exampleMediaLink) exampleSource).2 ∧
    (World.allOk exampleMediaLink).osOpen (str "/work/server.zip") = none ∧
    Event.fileClose ∉ (push exampleRegistry (World.allOk exampleMediaLink) exampleSource).2 := by
  decide

/-- C4 (amended): on no path, successful or failing, does `push` close the
local file it opened; the handle is still open when `push` returns. -/
theorem push_never_closes_file (r : Registry) (w : World) (source : ComponentSource) :
    Event.fileClose ∉ (push r w source).2 := by
  rcases pushPath_total r w source with
    ⟨e, h1⟩ | ⟨e, h1, h2⟩ | ⟨e, h1, h2, h3⟩ | ⟨e, h1, h2, h3, h4⟩ | ⟨e, h1, h2, h3, h4, h5⟩ |
    ⟨e, ml, h1, h2, h3, h4, h5, h6⟩ | ⟨ml, pu, h1, h2, h3, h4, h5, h6⟩
  · rw [push_clientFail r w source e h1]; simp [startUpdate]
  · rw [push_openFail r w source e h1 h2]; simp [startUpdate]
  · rw [push_copyFail r w source e h1 h2 h3]; simp [startUpdate]
  · rw [push_closeFail r w source e h1 h2 h3 h4]; simp [startUpdate]
  · rw [push_attrsFail r w source e h1 h2 h3 h4 h5]; simp [startUpdate]
  · rw [push_parseFail r w source e ml h1 h2 h3 h4 h5 h6]; simp [startUpdate]
  · rw [push_success r w source ml pu h1 h2 h3 h4 h5 h6]; simp [startUpdate]

/-- C5: in every run of `push` the progress status is acquired exactly once,
as the first operation, and `Close` is called on it exactly once, as the last
operation of the run and the last operation on the status. -/
theorem push_status_acquired_and_closed_once (r : Registry) (w : World)
    (source : ComponentSource) :
    (push r w source).2.count .uiStatus = 1 ∧
    (push r w source).2.head? = some .uiStatus ∧
    (push r w source).2.count .statusClose = 1 ∧
    (push r w source).2.getLast? = some .statusClose ∧
    (sinkOps (push r w source).2).getLast? = some .statusClose := by
  rcases pushPath_total r w source with
    ⟨e, h1⟩ | ⟨e, h1, h2⟩ | ⟨e, h1, h2, h3⟩ | ⟨e, h1, h2, h3, h4⟩ | ⟨e, h1, h2, h3, h4, h5⟩ |
    ⟨e, ml, h1, h2, h3, h4, h5, h6⟩ | ⟨ml, pu, h1, h2, h3, h4, h5, h6⟩
  · rw [push_clientFail r w source e h1]
    simp [startUpdate, sinkOps, Event.isSinkOp, List.count_cons]
  · rw [push_openFail r w source e h1 h2]
    simp [startUpdate, sinkOps, Event.isSinkOp, List.count_cons]
  · rw [push_copyFail r w source e h1 h2 h3]
    simp [startUpdate, sinkOps, Event.isSinkOp, List.count_cons]
  · rw [push_closeFail r w source e h1 h2 h3 h4]
    simp [startUpdate, sinkOps, Event.isSinkOp, List.count_cons]
  · rw [push_attrsFail r w source e h1 h2 h3 h4 h5]
    simp [startUpdate, sinkOps, Event.isSinkOp, List.count_cons]
  · rw [push_parseFail r w source e ml h1 h2 h3 h4 h5 h6]
    simp [startUpdate, sinkOps, Event.isSinkOp, List.count_cons]
  · rw [push_success r w source ml pu h1 h2 h3 h4 h5 h6]
    simp [startUpdate, sinkOps, Event.isSinkOp, List.count_cons]

/-! ## Short-circuiting and the successful run -/

/-- C9: `push` short-circuits: the steps it performs, in order, are the
steps of the fixed order up to and including the first failing one, and no
operation of a later step occurs; in particular when opening the local file
fails, `push` returns that error and neither the copy, nor the writer
`Close`, nor the `Attrs` call occurs. -/
theorem push_short_circuits (r : Registry) (w : World) (source : ComponentSource) :
    (push r w source).2.filterMap Event.stepOf
      = stepsRun (fun st => (stepError r w source st).isSome) Step.order ∧
    (∀ e, w.newClient = none →
      w.osOpen (w.pathJoin source.Path r.config.Source) = some e →
      (push r w source).1 = (none, some e) ∧
      Event.ioCopy ∉ (push r w source).2 ∧
      Event.writerClose ∉ (push r w source).2 ∧
      Event.objectAttrs ∉ (push r w source).2) := by
  constructor
  · rcases pushPath_total r w source with
      ⟨e, h1⟩ | ⟨e, h1, h2⟩ | ⟨e, h1, h2, h3⟩ | ⟨e, h1, h2, h3, h4⟩ | ⟨e, h1, h2, h3, h4, h5⟩ |
      ⟨e, ml, h1, h2, h3, h4, h5, h6⟩ | ⟨ml, pu, h1, h2, h3, h4, h5, h6⟩
    · rw [push_clientFail r w source e h1]
      simp [startUpdate, Event.stepOf, stepsRun, Step.order, stepError, h1]
    · rw [push_openFail r w source e h1 h2]
      simp [startUpdate, Event.stepOf, stepsRun, Step.order, stepError, h1, h2]
    · rw [push_copyFail r w source e h1 h2 h3]
      simp [startUpdate, Event.stepOf, stepsRun, Step.order, stepError, h1, h2, h3]
    · rw [push_closeFail r w source e h1 h2 h3 h4]
      simp [startUpdate, Event.stepOf, stepsRun, Step.order, stepError, h1, h2, h3, h4]
    · rw [push_attrsFail r w source e h1 h2 h3 h4 h5]
      simp [startUpdate, Event.stepOf, stepsRun, Step.order, stepError, h1, h2, h3, h4, h5]
    · rw [push_parseFail r w source e ml h1 h2 h3 h4 h5 h6]
      simp [startUpdate, Event.stepOf, stepsRun, Step.order, stepError, h1, h2, h3, h4, h5, h6]
    · rw [push_success r w source ml pu h1 h2 h3 h4 h5 h6]
      simp [startUpdate, Event.stepOf, stepsRun, Step.order, stepError, h1, h2, h3, h4, h5, h6]
  · intro e h1 h2
    rw [push_openFail r w source e h1 h2]
    simp [startUpdate]

/-- Witness of C9: in the example world with a failing file open, `push`
returns the error and performs no copy, no writer close and no attribute
fetch. -/
theorem push_short_circuits_witness :
    (push exampleRegistry
        { World.allOk exampleMediaLink with osOpen := fun _ => some exampleError }
        exampleSource).1 = (none, some exampleError) ∧
    Event.ioCopy ∉ (push exampleRegistry
        { World.allOk exampleMediaLink with osOpen := fun _ => some exampleError }
        exampleSource).2 ∧
    Event.writerClose ∉ (push exampleRegistry
        { World.allOk exampleMediaLink with osOpen := fun _ => some exampleError }
        exampleSource).2 ∧
    Event.objectAttrs ∉ (push exampleRegistry
        { World.allOk exampleMediaLink with osOpen := fun _ => some exampleError }
        exampleSource).2 :=
  (push_short_circuits exampleRegistry
    { World.allOk exampleMediaLink with osOpen := fun _ => some exampleError }
    exampleSource).2 exampleError rfl rfl

/-- C10: whenever every step of `push` succeeds, the returned `Artifact`
has as `Source` the result of `stripQueryParams` on the fetched `MediaLink`,
and the operations on the progress status are exactly: the update naming
`config.Name`, one success-level step whose message contains that `Source`,
and `Close`; no error-level step occurs. -/
theorem push_success_artifact_and_sinkOps (r : Registry) (w : World) (source : ComponentSource)
    (h : ∀ st, stepError r w source st = none) :
    ∃ ml, w.objectAttrs = .ok ml ∧
      (push r w source).1 = (some { Source := (stripQueryParams ml).1 }, none) ∧
      sinkOps (push r w source).2 =
        [.update (str "Pushing artifact to registry: " ++ r.config.Name),
         .step .StatusOK
           (str "Artifact saved to Google Cloud Storage: '" ++ (stripQueryParams ml).1 ++ str "'"),
         .statusClose] ∧
      (push r w source).2.countP Event.isErrorStep = 0 := by
  rcases pushPath_total r w source with
    ⟨e, h1⟩ | ⟨e, h1, h2⟩ | ⟨e, h1, h2, h3⟩ | ⟨e, h1, h2, h3, h4⟩ | ⟨e, h1, h2, h3, h4, h5⟩ |
    ⟨e, ml, h1, h2, h3, h4, h5, h6⟩ | ⟨ml, pu, h1, h2, h3, h4, h5, h6⟩
  · have := h .clientConstruction
    simp [stepError, h1] at this
  · have := h .fileOpen
    simp [stepError, h2] at this
  · have := h .copy
    simp [stepError, h3] at this
  · have := h .writerClose
    simp [stepError, h4] at this
  · have := h .attrsFetch
    simp [stepError, h5] at this
  · have := h .urlParse
    simp [stepError, h5, h6] at this
  · refine ⟨ml, h5, ?_⟩
    rw [push_success r w source ml pu h1 h2 h3 h4 h5 h6]
    simp [sinkOps, startUpdate, Event.isSinkOp, Event.isErrorStep]

/-- Witness of C10: the example world, in which every step succeeds. -/
theorem push_success_artifact_and_sinkOps_witness :
    ∃ ml, (World.allOk exampleMediaLink).objectAttrs = .ok ml ∧
      (push exampleRegistry (World.allOk exampleMediaLink) exampleSource).1
        = (some { Source := (stripQueryParams ml).1 }, none) ∧
      sinkOps (push exampleRegistry (World.allOk exampleMediaLink) exampleSource).2 =
        [.update (str "Pushing artifact to registry: " ++ exampleRegistry.config.Name),
         .step .StatusOK
           (str "Artifact saved to Google Cloud Storage: '" ++ (stripQueryParams ml).1 ++ str "'"),
         .statusClose] ∧
      (push exampleRegistry (World.allOk exampleMediaLink) exampleSource).2.countP
        Event.isErrorStep = 0 :=
  push_success_artifact_and_sinkOps exampleRegistry (World.allOk exampleMediaLink) exampleSource
    (by intro st; cases st <;> decide)

/-! ## `stripQueryParams` -/

end CloudStorage
